import Mathlib

/-!
Shallow embedding of the yt-comprehend core (src/comprehend.py, src/cli.py,
src/extractors/captions.py) and verification of the spec's claims about it.

Python floats are modelled as rationals (ℚ), Python ints as ℤ, lists as
`List`, exceptions as an explicit error type threaded through `Except`, and
the progress callback as an optional function that may itself "raise".
-/

namespace YtComprehend

/-- Exceptions that can flow through `analyze`.  `captionError` embeds
`CaptionExtractionError`, `audioError` embeds `AudioExtractionError`,
`valueError` embeds Python `ValueError` (invalid tier, unparsable URL),
`runtimeError` embeds the tier-3 missing-dependency `RuntimeError`, and
`other` stands for any other exception type. -/
inductive Exc where
  | captionError (msg : String)
  | audioError (msg : String)
  | valueError (msg : String)
  | runtimeError (msg : String)
  | other (msg : String)
deriving DecidableEq, Repr

/-- Observable events of one `analyze` call, in execution order: a message
delivered to the progress callback, or the invocation of one of the three
tier backends (`caption_extractor.extract`, `audio_extractor.extract`,
`visual_extractor.extract`). -/
inductive Event where
  | progressMsg (msg : String)
  | callCaption
  | callAudio
  | callVisual
deriving DecidableEq, Repr

/-- A transcript segment as `analyze` / the CLI see it: `text` and `start`
are always present; `end` and `duration` are modelled as optional to embed
the CLI's `getattr(s, 'end', s.start + getattr(s, 'duration', 0))` access
(caption segments carry `duration` and an `end` property equal to
`start + duration`; audio segments carry an explicit `end`). -/
structure PySegment where
  text : String
  start : ℚ
  end_ : Option ℚ := none
  duration : Option ℚ := none
deriving DecidableEq, Repr

/-- Embeds `VideoMetadata` (src/comprehend.py lines 15-23). -/
structure VideoMetadata where
  url : String
  video_id : String
  tier_used : Int
  language : String
  duration : Option ℚ := none
  has_visual_content : Bool := false
deriving DecidableEq, Repr

/-- Embeds `FrameContent` (src/extractors/visual.py lines 38-45); the
`frame_path` and `scene_index` fields play no role in the claims' logic. -/
structure FrameContent where
  timestamp : ℚ
  ocr_text : String := ""
  confidence : ℚ := 0
deriving DecidableEq, Repr

/-- Embeds `ComprehendResult` (src/comprehend.py lines 26-33). -/
structure ComprehendResult where
  metadata : VideoMetadata
  transcript_text : String
  transcript_segments : List PySegment
  visual_text : String := ""
  visual_frames : List FrameContent := []
deriving DecidableEq, Repr

/-! ## Timestamp grouping

`ComprehendResult._format_with_timestamps` (src/comprehend.py lines 71-101)
and `CaptionResult.text_with_timestamps` (src/extractors/captions.py lines
44-74) run the same bucketing loop; the first `strip()`s each segment text,
the second appends it raw.  The loop below is embedded as a function
returning the flushed groups (bucket start, buffered texts), from which the
rendered string is assembled exactly as the loop emits its lines. -/

/-- Embeds `_format_time` (identical in src/comprehend.py lines 103-110 and
src/extractors/captions.py lines 77-85).  `pyFloorMod a b` is Python's
float `%` for the divisors 3600 and 60 used here. -/
def pyFloorMod (a b : ℚ) : ℚ := a - b * (a / b).floor

/-- Embeds the zero-padding of Python `f"{n:02d}"`. -/
def pad2 (n : Int) : String :=
  let s := toString n
  if s.length < 2 then "0" ++ s else s

/-- Embeds `_format_time(seconds)`: `HH:MM:SS` when at least one hour has
elapsed, else `MM:SS`. -/
def formatTime (seconds : ℚ) : String :=
  let hours : Int := (seconds / 3600).floor
  let minutes : Int := (pyFloorMod seconds 3600 / 60).floor
  let secs : Int := (pyFloorMod seconds 60).floor
  if hours > 0 then
    pad2 hours ++ ":" ++ pad2 minutes ++ ":" ++ pad2 secs
  else
    pad2 minutes ++ ":" ++ pad2 secs

/-- Drops leading whitespace characters from a character list. -/
def dropLeadingWs : List Char → List Char
  | [] => []
  | c :: rest => if c.isWhitespace then dropLeadingWs rest else c :: rest

/-- Embeds Python `str.strip()` (no arguments): removes leading and
trailing whitespace. -/
def pyStrip (s : String) : String :=
  String.mk ((dropLeadingWs (dropLeadingWs s.toList).reverse).reverse)

/-- The loop of `_format_with_timestamps` (src/comprehend.py lines 80-95),
carrying `current_interval_start` and `current_texts` and returning the
flushed `(current_interval_start, current_texts)` groups in emission order;
each segment text is appended `strip()`ped, as in the source. -/
def formatGroupsAux (interval : Int) :
    List PySegment → Int → List String → List (Int × List String)
  | [], curStart, curTexts =>
      if curTexts ≠ [] then [(curStart, curTexts)] else []
  | seg :: rest, curStart, curTexts =>
      let intervalNum : Int := (seg.start / (interval : ℚ)).floor
      let expectedStart : Int := intervalNum * interval
      if expectedStart > curStart ∧ curTexts ≠ [] then
        (curStart, curTexts) ::
          formatGroupsAux interval rest expectedStart [pyStrip seg.text]
      else
        formatGroupsAux interval rest curStart (curTexts ++ [pyStrip seg.text])

/-- Groups of `_format_with_timestamps`: the loop started with
`current_interval_start = 0` and an empty buffer. -/
def formatGroups (segments : List PySegment) (interval : Int) :
    List (Int × List String) :=
  formatGroupsAux interval segments 0 []

/-- The identical loop of `CaptionResult.text_with_timestamps`
(src/extractors/captions.py lines 53-67), which appends `seg.text` without
stripping. -/
def captionGroupsAux (interval : Int) :
    List PySegment → Int → List String → List (Int × List String)
  | [], curStart, curTexts =>
      if curTexts ≠ [] then [(curStart, curTexts)] else []
  | seg :: rest, curStart, curTexts =>
      let intervalNum : Int := (seg.start / (interval : ℚ)).floor
      let expectedStart : Int := intervalNum * interval
      if expectedStart > curStart ∧ curTexts ≠ [] then
        (curStart, curTexts) ::
          captionGroupsAux interval rest expectedStart [seg.text]
      else
        captionGroupsAux interval rest curStart (curTexts ++ [seg.text])

/-- Groups of `CaptionResult.text_with_timestamps`. -/
def captionGroups (segments : List PySegment) (interval : Int) :
    List (Int × List String) :=
  captionGroupsAux interval segments 0 []

/-- Renders the groups to the lines `_format_with_timestamps` emits: every
group but the last as `**[start - start+interval]**`, text, blank line; the
last as `**[start - end]**`, text. -/
def renderGroups (interval : Int) : List (Int × List String) → List String
  | [] => []
  | [(c, texts)] =>
      ["**[" ++ formatTime (c : ℚ) ++ " - end]**", String.intercalate " " texts]
  | (c, texts) :: g :: rest =>
      ("**[" ++ formatTime (c : ℚ) ++ " - " ++ formatTime ((c + interval : Int) : ℚ) ++ "]**")
        :: String.intercalate " " texts :: ""
        :: renderGroups interval (g :: rest)

/-- Embeds `_format_with_timestamps(segments, interval)` as a whole. -/
def formatWithTimestamps (segments : List PySegment) (interval : Int) : String :=
  String.intercalate "\n" (renderGroups interval (formatGroups segments interval))

/-! ## Video id extraction

`CaptionExtractor.extract_video_id` (src/extractors/captions.py lines
102-115) applies `re.search` with two patterns in order:
first marker-based (`youtube.com/watch?v=`, `youtu.be/`,
`youtube.com/embed/`, each followed by exactly eleven id characters
captured), then a whole-string bare eleven-character id; on no match it
raises `ValueError`.  `re.search` is embedded as a leftmost-position scan:
at each position the alternation is tried in order. -/

/-- Embeds the regex character class `[a-zA-Z0-9_-]`. -/
def isIdChar (c : Char) : Bool := c.isAlpha || c.isDigit || c = '_' || c = '-'

/-- The three URL markers of the first pattern, in alternation order. -/
def markerStrings : List (List Char) :=
  ["youtube.com/watch?v=".toList, "youtu.be/".toList, "youtube.com/embed/".toList]

/-- Tries to match one marker at the head of `s`, followed by exactly
eleven id characters; returns the captured eleven characters. -/
def tryOneMarker (marker s : List Char) : Option (List Char) :=
  if marker.isPrefixOf s then
    let cand := (s.drop marker.length).take 11
    if cand.length = 11 ∧ cand.all isIdChar = true then some cand else none
  else none

/-- Tries the three markers at the head of `s` in the pattern's
alternation order. -/
def tryMarkersAt (s : List Char) : Option (List Char) :=
  match tryOneMarker "youtube.com/watch?v=".toList s with
  | some v => some v
  | none =>
    match tryOneMarker "youtu.be/".toList s with
    | some v => some v
    | none => tryOneMarker "youtube.com/embed/".toList s

/-- Embeds `re.search` for the first pattern: scan positions left to right,
return the first capture. -/
def findMarkerId : List Char → Option (List Char)
  | [] => none
  | c :: rest =>
    match tryMarkersAt (c :: rest) with
    | some v => some v
    | none => findMarkerId rest

/-- Embeds `re.search(r'^([a-zA-Z0-9_-]\x7b11\x7d)$', url)`: the whole
string is an eleven-character id, where `$` also matches just before one
final newline. -/
def bareIdMatch (cs : List Char) : Bool :=
  (cs.length = 11 && cs.all isIdChar)
    || (cs.length = 12 && cs.getLast? = some '\n' && (cs.take 11).all isIdChar)

/-- Embeds `CaptionExtractor.extract_video_id(url)`. -/
def extractVideoId (url : String) : Except Exc String :=
  match findMarkerId url.toList with
  | some v => .ok (String.mk v)
  | none =>
    if bareIdMatch url.toList then .ok (String.mk (url.toList.take 11))
    else .error (.valueError ("Could not extract video ID from: " ++ url))

/-! ## The tier orchestrator

`VideoComprehend.analyze` (src/comprehend.py lines 215-332).  Each backend
call (`caption_extractor.extract`, `audio_extractor.extract`,
`visual_extractor.extract`) is modelled by its outcome — a typed result or
a raised exception — held in a `Backends` record; every call within one
`analyze` run is recorded in an event trace together with every message
delivered to the progress callback.  The callback itself may raise, which
is modelled by it returning `some e`. -/

/-- Embeds `CaptionResult` (src/extractors/captions.py lines 31-42);
`video_id` and `is_generated` are not consumed by `analyze`. -/
structure CaptionResult where
  segments : List PySegment
  language : String
deriving DecidableEq, Repr

/-- Embeds the `CaptionResult.text` property:
`" ".join(seg.text for seg in self.segments)`. -/
def CaptionResult.text (r : CaptionResult) : String :=
  String.intercalate " " (r.segments.map (fun s => s.text))

/-- Embeds `TranscriptResult` (src/extractors/audio.py lines 57-68);
`language_probability` is not consumed by `analyze`. -/
structure TranscriptResult where
  segments : List PySegment
  language : String
  duration : ℚ
deriving DecidableEq, Repr

/-- Embeds the `TranscriptResult.text` property:
`" ".join(seg.text.strip() for seg in self.segments)`. -/
def TranscriptResult.text (r : TranscriptResult) : String :=
  String.intercalate " " (r.segments.map (fun s => pyStrip s.text))

/-- Embeds `VisualResult` (src/extractors/visual.py lines 48-61), reduced
to the fields `analyze` consumes: `frames` and the `text` property. -/
structure VisualResult where
  frames : List FrameContent
deriving DecidableEq, Repr

/-- Embeds the `VisualResult.text` property:
OCR text of each frame prefixed with its formatted timestamp. -/
def VisualResult.text (r : VisualResult) : String :=
  String.intercalate "\n\n"
    (r.frames.map (fun f => "[" ++ formatTime f.timestamp ++ "] " ++ f.ocr_text))

/-- The outcome of each backend's `extract` for the URL under analysis
(each backend is deterministic within one call, so one outcome per
backend; a `.error` models the call raising). -/
structure Backends where
  caption : Except Exc CaptionResult
  audio : Except Exc TranscriptResult
  visual : Except Exc VisualResult

/-- The configuration fields `analyze` consults (src/comprehend.py lines
132-134 defaults: `default_tier = 1`, `auto_escalate = True`). -/
structure Config where
  defaultTier : Int := 1
  autoEscalate : Bool := true

/-- A progress callback: given the message, returns `none` on normal
return or `some e` when the callback itself raises `e`. -/
def Callback : Type := String → Option Exc

/-- Embeds line 234, `tier = tier or self.config.get("default_tier", 1)`:
`None` and the falsy `0` are both replaced by the configured default. -/
def effTier (cfg : Config) (tier? : Option Int) : Int :=
  match tier? with
  | none => cfg.defaultTier
  | some t => if t = 0 then cfg.defaultTier else t

/-- Embeds line 235: `auto_escalate` defaults from config when `None`. -/
def effEscalate (cfg : Config) (ae? : Option Bool) : Bool :=
  match ae? with
  | none => cfg.autoEscalate
  | some b => b

/-- Embeds `if progress_callback: progress_callback(msg)`: no-op without a
callback; with one, the message is delivered (traced) and the callback may
raise. -/
def emitProgress (cb : Option Callback) (msg : String) : Option Exc × List Event :=
  match cb with
  | none => (none, [])
  | some f => (f msg, [Event.progressMsg msg])

/-- Outcome of one tier block: return a result, raise, or fall through to
the next tier (escalation). -/
inductive Step where
  | ret (r : ComprehendResult)
  | raised (e : Exc)
  | next

/-- The tier-1 result construction (src/comprehend.py lines 248-257). -/
def mkTier1Result (url vid : String) (out : CaptionResult) : ComprehendResult :=
  { metadata :=
      { url := url, video_id := vid, tier_used := 1, language := out.language }
    transcript_text := out.text
    transcript_segments := out.segments }

/-- The tier-2 result construction (src/comprehend.py lines 278-288). -/
def mkTier2Result (url vid : String) (out : TranscriptResult) : ComprehendResult :=
  { metadata :=
      { url := url, video_id := vid, tier_used := 2, language := out.language
        duration := some out.duration }
    transcript_text := out.text
    transcript_segments := out.segments }

/-- The tier-3 result construction (src/comprehend.py lines 317-330):
`has_visual_content = bool(visual_result.frames)`. -/
def mkTier3Result (url vid : String) (aout : TranscriptResult)
    (vout : VisualResult) : ComprehendResult :=
  { metadata :=
      { url := url, video_id := vid, tier_used := 3, language := aout.language
        duration := some aout.duration
        has_visual_content := !vout.frames.isEmpty }
    transcript_text := aout.text
    transcript_segments := aout.segments
    visual_text := vout.text
    visual_frames := vout.frames }

/-- The escalation message of line 263 (`{e}` is the exception text). -/
def escalate1Msg (m : String) : String :=
  "Captions unavailable: " ++ m ++ ". Escalating to Tier 2..."

/-- The escalation message of line 294. -/
def escalate2Msg (m : String) : String :=
  "Audio transcription failed: " ++ m ++ ". Escalating to Tier 3..."

/-- The `except CaptionExtractionError` clause (lines 259-264): re-raise
when escalation is off or `tier > 1`, else emit the escalation message
(an exception raised by the callback here is no longer inside the `try`
and propagates) and continue at tier 2. -/
def tier1Handle (ae : Bool) (tier : Int) (cb : Option Callback) (m : String)
    (evs : List Event) : Step × List Event :=
  if ¬ae = true ∨ tier > 1 then (.raised (.captionError m), evs)
  else
    match emitProgress cb (escalate1Msg m) with
    | (some e, evs2) => (.raised e, evs ++ evs2)
    | (none, evs2) => (.next, evs ++ evs2)

/-- The `if tier <= 1` block (lines 241-264).  The `try` covers both the
progress emission and the caption extraction, so a
`CaptionExtractionError` raised by either is handled by the clause. -/
def tier1Block (ae : Bool) (tier : Int) (cb : Option Callback) (B : Backends)
    (url vid : String) : Step × List Event :=
  match emitProgress cb "Trying caption extraction..." with
  | (some (.captionError m), evs) => tier1Handle ae tier cb m evs
  | (some e, evs) => (.raised e, evs)
  | (none, evs) =>
    match B.caption with
    | .ok out => (.ret (mkTier1Result url vid out), evs ++ [.callCaption])
    | .error (.captionError m) => tier1Handle ae tier cb m (evs ++ [.callCaption])
    | .error e => (.raised e, evs ++ [.callCaption])

/-- The `except AudioExtractionError` clause (lines 290-295). -/
def tier2Handle (ae : Bool) (tier : Int) (cb : Option Callback) (m : String)
    (evs : List Event) : Step × List Event :=
  if ¬ae = true ∨ tier > 2 then (.raised (.audioError m), evs)
  else
    match emitProgress cb (escalate2Msg m) with
    | (some e, evs2) => (.raised e, evs ++ evs2)
    | (none, evs2) => (.next, evs ++ evs2)

/-- The `if tier <= 2` block (lines 267-295). -/
def tier2Block (ae : Bool) (tier : Int) (cb : Option Callback) (B : Backends)
    (url vid : String) : Step × List Event :=
  match emitProgress cb "Starting audio transcription..." with
  | (some (.audioError m), evs) => tier2Handle ae tier cb m evs
  | (some e, evs) => (.raised e, evs)
  | (none, evs) =>
    match B.audio with
    | .ok out => (.ret (mkTier2Result url vid out), evs ++ [.callAudio])
    | .error (.audioError m) => tier2Handle ae tier cb m (evs ++ [.callAudio])
    | .error e => (.raised e, evs ++ [.callAudio])

/-- The `if tier == 3` block (lines 298-330): no `try` — any exception
from the progress emission, the audio backend or the visual backend
propagates; the visual backend is only invoked after the audio backend
succeeded. -/
def tier3Run (cb : Option Callback) (B : Backends) (url vid : String) :
    Except Exc ComprehendResult × List Event :=
  match emitProgress cb "Starting full visual analysis..." with
  | (some e, evs) => (.error e, evs)
  | (none, evs) =>
    match B.audio with
    | .error e => (.error e, evs ++ [.callAudio])
    | .ok aout =>
      match B.visual with
      | .error e => (.error e, evs ++ [.callAudio, .callVisual])
      | .ok vout =>
          (.ok (mkTier3Result url vid aout vout), evs ++ [.callAudio, .callVisual])

/-- Runs the tier-2 block and, on escalation, the tier-3 block (the
`tier = 3` assignment of line 295 followed by `if tier == 3`). -/
def runFrom2 (ae : Bool) (tier : Int) (cb : Option Callback) (B : Backends)
    (url vid : String) : Except Exc ComprehendResult × List Event :=
  match tier2Block ae tier cb B url vid with
  | (.ret r, evs) => (.ok r, evs)
  | (.raised e, evs) => (.error e, evs)
  | (.next, evs) =>
      let o := tier3Run cb B url vid
      (o.1, evs ++ o.2)

/-- Embeds `VideoComprehend.analyze(url, tier, auto_escalate,
progress_callback)` (lines 215-332), returning the outcome together with
the trace of backend invocations and delivered progress messages.  The
final line 332 `ValueError` is only reachable when the effective tier
exceeds 3. -/
def analyze (cfg : Config) (url : String) (tier? : Option Int)
    (ae? : Option Bool) (cb : Option Callback) (B : Backends) :
    Except Exc ComprehendResult × List Event :=
  let tier := effTier cfg tier?
  let ae := effEscalate cfg ae?
  match extractVideoId url with
  | .error e => (.error e, [])
  | .ok vid =>
    if tier ≤ 1 then
      match tier1Block ae tier cb B url vid with
      | (.ret r, evs) => (.ok r, evs)
      | (.raised e, evs) => (.error e, evs)
      | (.next, evs) =>
          let o := runFrom2 ae 2 cb B url vid
          (o.1, evs ++ o.2)
    else if tier ≤ 2 then
      runFrom2 ae tier cb B url vid
    else if tier = 3 then
      tier3Run cb B url vid
    else
      (.error (.valueError ("Invalid tier: " ++ toString tier ++ ". Must be 1, 2, or 3.")), [])

/-! ## The CLI JSON rendering (src/cli.py lines 257-273) -/

/-- One rendered segment entry:
`{"text": s.text, "start": s.start, "end": getattr(s, 'end', s.start + getattr(s, 'duration', 0))}`. -/
structure JsonSeg where
  text : String
  start : ℚ
  end_ : ℚ
deriving DecidableEq, Repr

/-- Renders one transcript segment to its JSON entry. -/
def renderSegment (s : PySegment) : JsonSeg :=
  { text := s.text
    start := s.start
    end_ :=
      match s.end_ with
      | some e => e
      | none => s.start + (s.duration.getD 0) }

/-- The JSON document of the `--format json` branch of `cli.main`, reduced
to the fields the claims concern; `visual_text` is `null` when empty. -/
structure JsonDoc where
  tier_used : Int
  transcript : String
  segments : List JsonSeg
  visual_text : Option String
deriving DecidableEq, Repr

/-- Embeds the JSON rendering (src/cli.py lines 259-273): one `segments`
entry per transcript segment, in order. -/
def renderJson (r : ComprehendResult) : JsonDoc :=
  { tier_used := r.metadata.tier_used
    transcript := r.transcript_text
    segments := r.transcript_segments.map renderSegment
    visual_text := if r.visual_text = "" then none else some r.visual_text }

/-! ## Concrete fixtures used to instantiate the theorems -/

/-- Default configuration (`default_tier = 1`, `auto_escalate = True`). -/
def cfg0 : Config := {}

/-- A bare eleven-character video id, accepted by `extract_video_id`. -/
def url0 : String := "dQw4w9WgXcQ"

/-- A concrete successful caption extraction. -/
def capOut0 : CaptionResult :=
  { segments := [{ text := "hello", start := 0, duration := some 5 }]
    language := "en" }

/-- A concrete successful audio transcription. -/
def audOut0 : TranscriptResult :=
  { segments := [{ text := "world", start := 0, end_ := some 4 }]
    language := "en", duration := 4 }

/-- A concrete successful visual analysis with no frames. -/
def visOut0 : VisualResult := { frames := [] }

/-- Backends where every tier succeeds. -/
def okBackends : Backends :=
  { caption := .ok capOut0, audio := .ok audOut0, visual := .ok visOut0 }

/-- Backends where tier 1 raises `CaptionExtractionError` and the rest
succeed. -/
def capFailBackends : Backends :=
  { caption := .error (.captionError "no captions"), audio := .ok audOut0
    visual := .ok visOut0 }

/-- Backends where tier 1 raises `CaptionExtractionError` and the audio
backend raises `AudioExtractionError`. -/
def audFailBackends : Backends :=
  { caption := .error (.captionError "no captions")
    audio := .error (.audioError "net"), visual := .ok visOut0 }

/-- A callback that raises a generic exception on every message. -/
def badCb : Callback := fun _ => some (.other "boom")

/-- A callback that always returns normally. -/
def okCb : Callback := fun _ => none

/-- A result with one transcript segment that carries `duration` but no
explicit `end` attribute. -/
def jsonFixture : ComprehendResult :=
  { metadata :=
      { url := url0, video_id := url0, tier_used := 1, language := "en" }
    transcript_text := "a"
    transcript_segments := [{ text := "a", start := 3, duration := some 2 }] }

lemma findMarkerId_of_first (s : List Char) :
    ∀ (p : Nat) (v : List Char), tryMarkersAt (s.drop p) = some v →
      (∀ q, q < p → tryMarkersAt (s.drop q) = none) →
      findMarkerId s = some v := by
  induction s with
  | nil =>
      intro p v hp _
      cases p with
      | zero => simp [tryMarkersAt, tryOneMarker, List.isPrefixOf] at hp
      | succ n => simp [tryMarkersAt, tryOneMarker, List.isPrefixOf] at hp
  | cons c rest ih =>
      intro p v hp hmin
      cases p with
      | zero =>
          simp only [List.drop_zero] at hp
          simp [findMarkerId, hp]
      | succ n =>
          have h0 : tryMarkersAt (c :: rest) = none := by
            simpa using hmin 0 (Nat.succ_pos n)
          simp only [findMarkerId, h0]
          exact ih n v (by simpa using hp)
            (fun q hq => by simpa using hmin (q + 1) (Nat.succ_lt_succ hq))

lemma findMarkerId_none (s : List Char)
    (h : ∀ q, tryMarkersAt (s.drop q) = none) : findMarkerId s = none := by
  induction s with
  | nil => simp [findMarkerId]
  | cons c rest ih =>
      have h0 : tryMarkersAt (c :: rest) = none := by simpa using h 0
      simp only [findMarkerId, h0]
      exact ih (fun q => by simpa using h (q + 1))

lemma tryMarkersAt_shape (s v : List Char) (h : tryMarkersAt s = some v) :
    ∃ m, m ∈ markerStrings ∧ m.isPrefixOf s = true
      ∧ v = (s.drop m.length).take 11 ∧ v.length = 11 ∧ v.all isIdChar = true := by
  have shape : ∀ m, tryOneMarker m s = some v →
      m.isPrefixOf s = true ∧ v = (s.drop m.length).take 11
        ∧ v.length = 11 ∧ v.all isIdChar = true := by
    intro m hm
    unfold tryOneMarker at hm
    split at hm
    case isTrue hpre =>
      dsimp only at hm
      split at hm
      case isTrue hc =>
        obtain rfl := Option.some.inj hm
        exact ⟨hpre, rfl, hc.1, hc.2⟩
      case isFalse => exact Option.noConfusion hm
    case isFalse => exact Option.noConfusion hm
  unfold tryMarkersAt at h
  cases h1 : tryOneMarker "youtube.com/watch?v=".toList s with
  | some v1 =>
      rw [h1] at h
      obtain rfl : v1 = v := Option.some.inj h
      exact ⟨_, by simp [markerStrings], shape _ h1⟩
  | none =>
      rw [h1] at h
      cases h2 : tryOneMarker "youtu.be/".toList s with
      | some v2 =>
          rw [h2] at h
          obtain rfl : v2 = v := Option.some.inj h
          exact ⟨_, by simp [markerStrings], shape _ h2⟩
      | none =>
          rw [h2] at h
          exact ⟨_, by simp [markerStrings], shape _ h⟩

lemma formatGroupsAux_join (interval : Int) (segs : List PySegment) :
    ∀ curStart curTexts,
      ((formatGroupsAux interval segs curStart curTexts).map Prod.snd).flatten
        = curTexts ++ segs.map (fun s => pyStrip s.text) := by
  induction segs with
  | nil =>
      intro curStart curTexts
      by_cases h : curTexts = []
      · simp [formatGroupsAux, h]
      · simp [formatGroupsAux, h]
  | cons seg rest ih =>
      intro curStart curTexts
      by_cases h : ((seg.start / (interval : ℚ)).floor * interval > curStart ∧ curTexts ≠ [])
      · simp only [formatGroupsAux, if_pos h, List.map_cons, List.flatten]
        rw [ih]
        simp
      · simp only [formatGroupsAux, if_neg h]
        rw [ih]
        simp

lemma captionGroupsAux_join (interval : Int) (segs : List PySegment) :
    ∀ curStart curTexts,
      ((captionGroupsAux interval segs curStart curTexts).map Prod.snd).flatten
        = curTexts ++ segs.map (fun s => s.text) := by
  induction segs with
  | nil =>
      intro curStart curTexts
      by_cases h : curTexts = []
      · simp [captionGroupsAux, h]
      · simp [captionGroupsAux, h]
  | cons seg rest ih =>
      intro curStart curTexts
      by_cases h : ((seg.start / (interval : ℚ)).floor * interval > curStart ∧ curTexts ≠ [])
      · simp only [captionGroupsAux, if_pos h, List.map_cons, List.flatten]
        rw [ih]
        simp
      · simp only [captionGroupsAux, if_neg h]
        rw [ih]
        simp

lemma formatGroupsAux_head (interval : Int) (segs : List PySegment) :
    ∀ curStart curTexts, curTexts ≠ [] →
      ((formatGroupsAux interval segs curStart curTexts).head?.map Prod.fst)
        = some curStart := by
  induction segs with
  | nil =>
      intro curStart curTexts h
      simp [formatGroupsAux, h]
  | cons seg rest ih =>
      intro curStart curTexts h
      by_cases hc : ((seg.start / (interval : ℚ)).floor * interval > curStart ∧ curTexts ≠ [])
      · simp [formatGroupsAux, if_pos hc]
      · simp only [formatGroupsAux, if_neg hc]
        exact ih curStart (curTexts ++ [pyStrip seg.text]) (by simp)

lemma captionGroupsAux_head (interval : Int) (segs : List PySegment) :
    ∀ curStart curTexts, curTexts ≠ [] →
      ((captionGroupsAux interval segs curStart curTexts).head?.map Prod.fst)
        = some curStart := by
  induction segs with
  | nil =>
      intro curStart curTexts h
      simp [captionGroupsAux, h]
  | cons seg rest ih =>
      intro curStart curTexts h
      by_cases hc : ((seg.start / (interval : ℚ)).floor * interval > curStart ∧ curTexts ≠ [])
      · simp [captionGroupsAux, if_pos hc]
      · simp only [captionGroupsAux, if_neg hc]
        exact ih curStart (curTexts ++ [seg.text]) (by simp)

end YtComprehend

namespace YtComprehend

/-- C3: for every ordered list of timed segments and every interval > 0, the
grouping loop's output, concatenated across groups in emission order, is
exactly the list of segment texts in original order — each exactly once,
none dropped, duplicated or reordered (stripped in
`_format_with_timestamps`, verbatim in `text_with_timestamps`). -/
theorem c3_grouping_preserves_texts (segs : List PySegment) (interval : Int)
    (hpos : 0 < interval) :
    ((formatGroups segs interval).map Prod.snd).flatten
        = segs.map (fun s => pyStrip s.text)
      ∧ ((captionGroups segs interval).map Prod.snd).flatten
        = segs.map (fun s => s.text) := by
  constructor
  · simpa using formatGroupsAux_join interval segs 0 []
  · simpa using captionGroupsAux_join interval segs 0 []

/-- Witness for C3 at a concrete input. -/
theorem c3_grouping_preserves_texts_witness :
    ((formatGroups
        [{ text := " hello ", start := 0 }, { text := "world", start := 35 }] 30).map
          Prod.snd).flatten
      = ["hello", "world"] := by
  have h := (c3_grouping_preserves_texts
    [{ text := " hello ", start := 0 }, { text := "world", start := 35 }] 30
    (by decide)).1
  rw [h]
  with_unfolding_all decide

/-- C9: for a non-empty segment list whose first segment starts at or beyond
the interval, the first emitted group still starts at bucket 0 (the running
bucket start only advances when a non-empty buffer is flushed), and bucket
start 0 is labeled `00:00` by `_format_time`. -/
theorem c9_first_group_starts_at_zero (s0 : PySegment) (rest : List PySegment)
    (interval : Int) (hpos : 0 < interval)
    (hstart : (interval : ℚ) ≤ s0.start) :
    ((formatGroups (s0 :: rest) interval).head?.map Prod.fst) = some 0
      ∧ ((captionGroups (s0 :: rest) interval).head?.map Prod.fst) = some 0
      ∧ formatTime 0 = "00:00" := by
  refine ⟨?_, ?_, ?_⟩
  · show ((formatGroupsAux interval (s0 :: rest) 0 []).head?.map Prod.fst) = some 0
    have : ¬ ((s0.start / (interval : ℚ)).floor * interval > (0 : Int) ∧ ([] : List String) ≠ []) := by
      simp
    simp only [formatGroupsAux, if_neg this]
    exact formatGroupsAux_head interval rest 0 [pyStrip s0.text] (by simp)
  · show ((captionGroupsAux interval (s0 :: rest) 0 []).head?.map Prod.fst) = some 0
    have : ¬ ((s0.start / (interval : ℚ)).floor * interval > (0 : Int) ∧ ([] : List String) ≠ []) := by
      simp
    simp only [captionGroupsAux, if_neg this]
    exact captionGroupsAux_head interval rest 0 [s0.text] (by simp)
  · with_unfolding_all decide

/-- Witness for C9 at a concrete input: a single segment starting at 35s
with interval 30s is still grouped under a first bucket labeled from 0. -/
theorem c9_first_group_starts_at_zero_witness :
    ((formatGroups [{ text := "late", start := 35 }] 30).head?.map Prod.fst) = some 0 := by
  have h := c9_first_group_starts_at_zero { text := "late", start := 35 } [] 30
    (by decide) (by norm_num)
  exact h.1

/-- C10: `extract_video_id` is deterministic; when the input contains a
recognized marker followed by at least eleven id characters, it returns
exactly the eleven id characters captured right after the first (leftmost)
such marker, truncating any longer trailing id; and when no marker
position matches and the input is not a bare eleven-character id, it
raises `ValueError`. -/
theorem c10_extract_video_id (u : String) :
    (extractVideoId u = extractVideoId u)
    ∧ (∀ (p : Nat) (v : List Char),
        tryMarkersAt (u.toList.drop p) = some v →
        (∀ q, q < p → tryMarkersAt (u.toList.drop q) = none) →
        extractVideoId u = .ok (String.mk v)
          ∧ ∃ m, m ∈ markerStrings ∧ m.isPrefixOf (u.toList.drop p) = true
              ∧ v = ((u.toList.drop p).drop m.length).take 11
              ∧ v.length = 11 ∧ v.all isIdChar = true)
    ∧ ((∀ q, tryMarkersAt (u.toList.drop q) = none) →
        bareIdMatch u.toList = false →
        extractVideoId u
          = .error (.valueError ("Could not extract video ID from: " ++ u))) := by
  refine ⟨rfl, ?_, ?_⟩
  · intro p v hp hmin
    have hfind : findMarkerId u.toList = some v := findMarkerId_of_first _ p v hp hmin
    refine ⟨?_, tryMarkersAt_shape _ _ hp⟩
    unfold extractVideoId
    rw [hfind]
  · intro hall hbare
    have hfind : findMarkerId u.toList = none := findMarkerId_none _ hall
    unfold extractVideoId
    rw [hfind, if_neg]
    simp [show bareIdMatch u.data = false from hbare]

/-- Witness for C10 at concrete inputs: a `youtu.be/` URL with a
twelve-character trailing id is truncated to the first eleven characters,
and a URL matching no pattern is rejected. -/
theorem c10_extract_video_id_witness :
    extractVideoId "https://youtu.be/dQw4w9WgXcQ5?t=1" = .ok "dQw4w9WgXcQ"
      ∧ extractVideoId "https://example.com/x"
          = .error (.valueError "Could not extract video ID from: https://example.com/x") := by
  constructor
  · have h := (c10_extract_video_id "https://youtu.be/dQw4w9WgXcQ5?t=1").2.1 8
      "dQw4w9WgXcQ".toList (by decide) (by decide)
    exact h.1
  · have h := (c10_extract_video_id "https://example.com/x").2.2
      (fun q => by
        have hq : q < 21 ∨ 21 ≤ q := Nat.lt_or_ge q 21
        rcases hq with hq | hq
        · interval_cases q <;> decide
        · rw [List.drop_eq_nil_of_le (by simpa using hq)]
          decide)
      (by decide)
    simpa using h

/-- C8: calling `analyze` with `tier=0` raises nothing for the tier value:
`0` is falsy, so it is silently replaced by the configured default tier and
the call is indistinguishable from `tier=None`. -/
theorem c8_tier_zero_is_default (cfg : Config) (url : String)
    (ae? : Option Bool) (cb : Option Callback) (B : Backends) :
    analyze cfg url (some 0) ae? cb B = analyze cfg url none ae? cb B
      ∧ effTier cfg (some 0) = cfg.defaultTier := by
  constructor
  · rfl
  · rfl

/-- C1 counterexample: the claim quantifies over every effective tier
outside {1,2,3}, but at effective tier `-1` analyze does not raise
InvalidTier at all: the caption backend is invoked and a tier-1 result is
returned. -/
theorem c1_counterexample_negative_tier :
    effTier cfg0 (some (-1)) = -1
      ∧ analyze cfg0 url0 (some (-1)) (some true) none okBackends
          = (.ok (mkTier1Result url0 url0 capOut0), [Event.callCaption]) := by
  constructor
  · rfl
  · rfl

/-- C1 (amended): for every effective tier strictly above 3, `analyze`
raises the InvalidTier `ValueError` with an empty trace — no tier backend
is invoked and no escalation happens — regardless of `autoEscalate`; for
nonzero effective tiers below 1 the tier ladder is entered at tier 1
instead. -/
theorem c1_invalid_tier_above_three (cfg : Config) (url vid : String)
    (t : Int) (ae? : Option Bool) (cb : Option Callback) (B : Backends)
    (ht : 3 < t) (hvid : extractVideoId url = .ok vid) :
    analyze cfg url (some t) ae? cb B
      = (.error (.valueError ("Invalid tier: " ++ toString t ++ ". Must be 1, 2, or 3.")), []) := by
  have htier : effTier cfg (some t) = t := by
    simp only [effTier, if_neg (by omega : ¬ t = 0)]
  unfold analyze
  rw [hvid]
  simp only [htier]
  rw [if_neg (by omega), if_neg (by omega), if_neg (by omega)]

/-- Witness for C1's amended theorem at tier 4. -/
theorem c1_invalid_tier_above_three_witness :
    analyze cfg0 url0 (some 4) none none okBackends
      = (.error (.valueError ("Invalid tier: " ++ toString (4 : Int) ++ ". Must be 1, 2, or 3.")), []) :=
  c1_invalid_tier_above_three cfg0 url0 url0 4 none none okBackends
    (by decide) rfl

/-- C6: the CLI JSON rendering emits exactly one `segments` entry per
transcript segment, in verbatim order (equal lengths, the entry at index
`i` renders the source segment at index `i`), and for a source segment
lacking an explicit `end` attribute the rendered `end` is
`start + duration`. -/
theorem c6_json_segments (r : ComprehendResult) :
    (renderJson r).segments.length = r.transcript_segments.length
      ∧ ∀ (i : Nat) (seg : PySegment), r.transcript_segments[i]? = some seg →
          (renderJson r).segments[i]? = some (renderSegment seg)
            ∧ (renderSegment seg).text = seg.text
            ∧ (renderSegment seg).start = seg.start
            ∧ (seg.end_ = none → ∀ d, seg.duration = some d →
                (renderSegment seg).end_ = seg.start + d) := by
  refine ⟨by simp [renderJson], ?_⟩
  intro i seg hi
  refine ⟨?_, rfl, rfl, ?_⟩
  · simp [renderJson, List.getElem?_map, hi]
  · intro he d hd
    simp [renderSegment, he, hd]

/-- Witness for C6 at a concrete result whose only segment lacks `end` and
has `duration = 2`: the rendered entry gets `end = 3 + 2`. -/
theorem c6_json_segments_witness :
    (renderJson jsonFixture).segments.length = 1
      ∧ (renderJson jsonFixture).segments[0]?
          = some { text := "a", start := 3, end_ := 3 + 2 } := by
  have h := c6_json_segments jsonFixture
  have h0 := h.2 0 { text := "a", start := 3, duration := some 2 } rfl
  have hval : renderSegment { text := "a", start := 3, duration := some 2 }
      = { text := "a", start := 3, end_ := 3 + 2 } := by
    have := h0.2.2.2 rfl 2 rfl
    simp only [renderSegment] at this ⊢
    simp [this]
  exact ⟨h.1.trans rfl, h0.1.trans (by rw [hval])⟩

/-- C2: for every tier `t ∈ {1,2,3}`, with `autoEscalate=false` and tier
`t`'s backend raising its SoftFailure (`CaptionExtractionError` for tier 1,
`AudioExtractionError` for tiers 2 and 3), `analyze` raises that same
SoftFailure and the next tier's backend is never invoked. -/
theorem c2_soft_failure_not_escalated (cfg : Config) (url vid : String)
    (t : Int) (cb : Option Callback) (B : Backends) (m : String)
    (hvid : extractVideoId url = .ok vid)
    (hcb : ∀ f, cb = some f → ∀ s, f s = none)
    (hfail : (t = 1 ∧ B.caption = .error (.captionError m))
        ∨ (t = 2 ∧ B.audio = .error (.audioError m))
        ∨ (t = 3 ∧ B.audio = .error (.audioError m))) :
    (analyze cfg url (some t) (some false) cb B).1
        = .error (if t = 1 then Exc.captionError m else Exc.audioError m)
      ∧ (t = 1 → Event.callAudio ∉ (analyze cfg url (some t) (some false) cb B).2)
      ∧ Event.callVisual ∉ (analyze cfg url (some t) (some false) cb B).2 := by
  rcases hfail with ⟨rfl, hB⟩ | ⟨rfl, hB⟩ | ⟨rfl, hB⟩
  · rcases cb with - | f
    · simp [analyze, effTier, effEscalate, hvid, tier1Block, tier1Handle,
        emitProgress, hB]
    · have hf := hcb f rfl
      simp [analyze, effTier, effEscalate, hvid, tier1Block, tier1Handle,
        emitProgress, hB, hf]
  · rcases cb with - | f
    · simp [analyze, effTier, effEscalate, hvid, runFrom2, tier2Block,
        tier2Handle, emitProgress, hB]
    · have hf := hcb f rfl
      simp [analyze, effTier, effEscalate, hvid, runFrom2, tier2Block,
        tier2Handle, emitProgress, hB, hf]
  · rcases cb with - | f
    · simp [analyze, effTier, effEscalate, hvid, tier3Run, emitProgress, hB]
    · have hf := hcb f rfl
      simp [analyze, effTier, effEscalate, hvid, tier3Run, emitProgress, hB, hf]

/-- Witness for C2 at tier 2 with a failing audio backend and no callback. -/
theorem c2_soft_failure_not_escalated_witness :
    (analyze cfg0 url0 (some 2) (some false) none audFailBackends).1
        = .error (Exc.audioError "net")
      ∧ Event.callVisual ∉ (analyze cfg0 url0 (some 2) (some false) none audFailBackends).2 := by
  have h := c2_soft_failure_not_escalated cfg0 url0 url0 2 none audFailBackends "net"
    rfl (fun f hf => by cases hf) (Or.inr (Or.inl ⟨rfl, rfl⟩))
  refine ⟨?_, h.2.2⟩
  have := h.1
  simpa using this

/-- C5 counterexample: the claim says a raising progress sink must not
abort the pipeline, but with a callback that raises a generic exception
`analyze` propagates it and never reaches the backend, while the same call
without a callback succeeds. -/
theorem c5_counterexample_callback_aborts :
    (analyze cfg0 url0 none none (some badCb) okBackends).1 = .error (.other "boom")
      ∧ (analyze cfg0 url0 none none none okBackends).1
          = .ok (mkTier1Result url0 url0 capOut0) := by
  constructor
  · rfl
  · rfl

/-- C5 (amended): a failure in the progress sink is not suppressed — when
the callback raises an exception that is not the enclosing tier's
SoftFailure type (here at effective tier ≤ 1, not a
`CaptionExtractionError`), `analyze` propagates it immediately: the
pipeline aborts before any backend is invoked. -/
theorem c5_callback_exception_propagates (cfg : Config) (url vid : String)
    (tier? : Option Int) (ae? : Option Bool) (B : Backends) (f : Callback)
    (e : Exc) (hvid : extractVideoId url = .ok vid)
    (htier : effTier cfg tier? ≤ 1)
    (hf : f "Trying caption extraction..." = some e)
    (he : ∀ m, e ≠ Exc.captionError m) :
    analyze cfg url tier? ae? (some f) B
      = (.error e, [Event.progressMsg "Trying caption extraction..."]) := by
  have h1 : tier1Block (effEscalate cfg ae?) (effTier cfg tier?) (some f) B url vid
      = (.raised e, [Event.progressMsg "Trying caption extraction..."]) := by
    cases e with
    | captionError m => exact absurd rfl (he m)
    | audioError m => simp [tier1Block, emitProgress, hf]
    | valueError m => simp [tier1Block, emitProgress, hf]
    | runtimeError m => simp [tier1Block, emitProgress, hf]
    | other m => simp [tier1Block, emitProgress, hf]
  simp [analyze, hvid, htier, h1]

/-- Witness for C5's amended theorem with the always-raising callback. -/
theorem c5_callback_exception_propagates_witness :
    analyze cfg0 url0 none none (some badCb) okBackends
      = (.error (.other "boom"), [Event.progressMsg "Trying caption extraction..."]) :=
  c5_callback_exception_propagates cfg0 url0 url0 none none okBackends badCb
    (.other "boom") rfl (by decide) rfl (fun m h => Exc.noConfusion h)

/-- C7: when tier 1 raises `CaptionExtractionError` with
`autoEscalate=true` and the tier-2 backend succeeds, the result has
`tier_used = 2`, and a progress message containing "Escalating to Tier 2"
is delivered to the sink strictly before the tier-2 backend invocation. -/
theorem c7_escalation_message_before_tier2 (cfg : Config) (url vid m : String)
    (aout : TranscriptResult) (f : Callback) (B : Backends)
    (hvid : extractVideoId url = .ok vid)
    (hf : ∀ s, f s = none)
    (hcap : B.caption = .error (.captionError m))
    (haud : B.audio = .ok aout) :
    analyze cfg url (some 1) (some true) (some f) B
        = (.ok (mkTier2Result url vid aout),
           [Event.progressMsg "Trying caption extraction...", Event.callCaption,
            Event.progressMsg (escalate1Msg m),
            Event.progressMsg "Starting audio transcription...", Event.callAudio])
      ∧ (mkTier2Result url vid aout).metadata.tier_used = 2
      ∧ (∃ pre post : String, escalate1Msg m = pre ++ "Escalating to Tier 2" ++ post)
      ∧ (∃ i j : Nat, i < j
          ∧ (analyze cfg url (some 1) (some true) (some f) B).2[i]?
              = some (Event.progressMsg (escalate1Msg m))
          ∧ (analyze cfg url (some 1) (some true) (some f) B).2[j]?
              = some Event.callAudio) := by
  have heq : analyze cfg url (some 1) (some true) (some f) B
      = (.ok (mkTier2Result url vid aout),
         [Event.progressMsg "Trying caption extraction...", Event.callCaption,
          Event.progressMsg (escalate1Msg m),
          Event.progressMsg "Starting audio transcription...", Event.callAudio]) := by
    simp [analyze, effTier, effEscalate, hvid, tier1Block, tier1Handle,
      runFrom2, tier2Block, emitProgress, hcap, haud, hf]
  refine ⟨heq, rfl, ?_, ?_⟩
  · refine ⟨"Captions unavailable: " ++ m ++ ". ", "...", ?_⟩
    show "Captions unavailable: " ++ m ++ ". Escalating to Tier 2..." = _
    simp only [String.append_assoc]
    congr 1
  · exact ⟨2, 4, by omega, by rw [heq]; rfl, by rw [heq]; rfl⟩

/-- Witness for C7 with a benign callback, failing captions, and a
successful audio backend. -/
theorem c7_escalation_message_before_tier2_witness :
    (analyze cfg0 url0 (some 1) (some true) (some okCb) capFailBackends).1
      = .ok (mkTier2Result url0 url0 audOut0) := by
  have h := c7_escalation_message_before_tier2 cfg0 url0 url0 "no captions"
    audOut0 okCb capFailBackends rfl (fun s => rfl) rfl rfl
  rw [h.1]

lemma tier1Handle_ne_ret (ae : Bool) (t : Int) (cb : Option Callback)
    (m : String) (evs : List Event) (r : ComprehendResult) (evs2 : List Event) :
    tier1Handle ae t cb m evs ≠ (.ret r, evs2) := by
  unfold tier1Handle
  split
  · simp
  · rcases hemit : emitProgress cb (escalate1Msg m) with ⟨oe, e2⟩
    cases oe <;> simp [hemit]

lemma tier2Handle_ne_ret (ae : Bool) (t : Int) (cb : Option Callback)
    (m : String) (evs : List Event) (r : ComprehendResult) (evs2 : List Event) :
    tier2Handle ae t cb m evs ≠ (.ret r, evs2) := by
  unfold tier2Handle
  split
  · simp
  · rcases hemit : emitProgress cb (escalate2Msg m) with ⟨oe, e2⟩
    cases oe <;> simp [hemit]

lemma tier1Block_ret_shape (ae : Bool) (t : Int) (cb : Option Callback)
    (B : Backends) (url vid : String) (r : ComprehendResult) (evs : List Event)
    (h : tier1Block ae t cb B url vid = (.ret r, evs)) :
    ∃ out, B.caption = .ok out ∧ r = mkTier1Result url vid out := by
  unfold tier1Block at h
  rcases hp : emitProgress cb "Trying caption extraction..." with ⟨oe, evs0⟩
  rw [hp] at h
  cases oe with
  | some e =>
      cases e with
      | captionError m => exact absurd h (tier1Handle_ne_ret ae t cb m evs0 r evs)
      | audioError m => simp at h
      | valueError m => simp at h
      | runtimeError m => simp at h
      | other m => simp at h
  | none =>
      cases hc : B.caption with
      | ok out =>
          rw [hc] at h
          simp only [Prod.mk.injEq, Step.ret.injEq] at h
          exact ⟨out, rfl, h.1.symm⟩
      | error e =>
          rw [hc] at h
          cases e with
          | captionError m =>
              exact absurd h (tier1Handle_ne_ret ae t cb m (evs0 ++ [.callCaption]) r evs)
          | audioError m => simp at h
          | valueError m => simp at h
          | runtimeError m => simp at h
          | other m => simp at h

lemma tier2Block_ret_shape (ae : Bool) (t : Int) (cb : Option Callback)
    (B : Backends) (url vid : String) (r : ComprehendResult) (evs : List Event)
    (h : tier2Block ae t cb B url vid = (.ret r, evs)) :
    ∃ out, B.audio = .ok out ∧ r = mkTier2Result url vid out := by
  unfold tier2Block at h
  rcases hp : emitProgress cb "Starting audio transcription..." with ⟨oe, evs0⟩
  rw [hp] at h
  cases oe with
  | some e =>
      cases e with
      | audioError m => exact absurd h (tier2Handle_ne_ret ae t cb m evs0 r evs)
      | captionError m => simp at h
      | valueError m => simp at h
      | runtimeError m => simp at h
      | other m => simp at h
  | none =>
      cases hc : B.audio with
      | ok out =>
          rw [hc] at h
          simp only [Prod.mk.injEq, Step.ret.injEq] at h
          exact ⟨out, rfl, h.1.symm⟩
      | error e =>
          rw [hc] at h
          cases e with
          | audioError m =>
              exact absurd h (tier2Handle_ne_ret ae t cb m (evs0 ++ [.callAudio]) r evs)
          | captionError m => simp at h
          | valueError m => simp at h
          | runtimeError m => simp at h
          | other m => simp at h

lemma tier3Run_ok_shape (cb : Option Callback) (B : Backends)
    (url vid : String) (r : ComprehendResult) (evs : List Event)
    (h : tier3Run cb B url vid = (.ok r, evs)) :
    ∃ aout vout, B.audio = .ok aout ∧ B.visual = .ok vout
      ∧ r = mkTier3Result url vid aout vout := by
  unfold tier3Run at h
  rcases hp : emitProgress cb "Starting full visual analysis..." with ⟨oe, evs0⟩
  rw [hp] at h
  cases oe with
  | some e => simp at h
  | none =>
      cases ha : B.audio with
      | error e => rw [ha] at h; simp at h
      | ok aout =>
          rw [ha] at h
          cases hv : B.visual with
          | error e => rw [hv] at h; simp at h
          | ok vout =>
              rw [hv] at h
              simp only [Prod.mk.injEq, Except.ok.injEq] at h
              exact ⟨aout, vout, rfl, rfl, h.1.symm⟩

lemma runFrom2_ok_shape (ae : Bool) (t : Int) (cb : Option Callback)
    (B : Backends) (url vid : String) (r : ComprehendResult) (evs : List Event)
    (h : runFrom2 ae t cb B url vid = (.ok r, evs)) :
    (∃ out, r = mkTier2Result url vid out)
      ∨ (∃ aout vout, r = mkTier3Result url vid aout vout) := by
  unfold runFrom2 at h
  rcases h2 : tier2Block ae t cb B url vid with ⟨s, evs2⟩
  rw [h2] at h
  cases s with
  | ret r2 =>
      simp only [Prod.mk.injEq, Except.ok.injEq] at h
      obtain ⟨out, -, hr⟩ := tier2Block_ret_shape ae t cb B url vid r2 evs2 h2
      exact Or.inl ⟨out, h.1 ▸ hr⟩
  | raised e => simp at h
  | next =>
      rcases h3 : tier3Run cb B url vid with ⟨res3, evs3⟩
      rw [h3] at h
      simp only [Prod.mk.injEq] at h
      rw [h.1] at h3
      obtain ⟨aout, vout, -, -, hr⟩ := tier3Run_ok_shape cb B url vid r evs3 h3
      exact Or.inr ⟨aout, vout, hr⟩

lemma analyze_ok_shape (cfg : Config) (url : String) (tier? : Option Int)
    (ae? : Option Bool) (cb : Option Callback) (B : Backends)
    (r : ComprehendResult) (evs : List Event)
    (h : analyze cfg url tier? ae? cb B = (.ok r, evs)) :
    ∃ vid, (∃ out, r = mkTier1Result url vid out)
      ∨ (∃ out, r = mkTier2Result url vid out)
      ∨ (∃ aout vout, r = mkTier3Result url vid aout vout) := by
  unfold analyze at h
  cases hv : extractVideoId url with
  | error e => rw [hv] at h; simp at h
  | ok vid =>
      rw [hv] at h
      dsimp only at h
      refine ⟨vid, ?_⟩
      by_cases h1 : effTier cfg tier? ≤ 1
      · rw [if_pos h1] at h
        rcases hb : tier1Block (effEscalate cfg ae?) (effTier cfg tier?) cb B url vid
          with ⟨s, evs1⟩
        rw [hb] at h
        cases s with
        | ret r1 =>
            simp only [Prod.mk.injEq, Except.ok.injEq] at h
            obtain ⟨out, -, hr⟩ :=
              tier1Block_ret_shape (effEscalate cfg ae?) (effTier cfg tier?) cb B url vid r1 evs1 hb
            exact Or.inl ⟨out, h.1 ▸ hr⟩
        | raised e => simp at h
        | next =>
            rcases h2 : runFrom2 (effEscalate cfg ae?) 2 cb B url vid with ⟨res2, evs2⟩
            rw [h2] at h
            simp only [Prod.mk.injEq] at h
            rw [h.1] at h2
            exact Or.inr (runFrom2_ok_shape (effEscalate cfg ae?) 2 cb B url vid r evs2 h2)
      · rw [if_neg h1] at h
        by_cases h2 : effTier cfg tier? ≤ 2
        · rw [if_pos h2] at h
          exact Or.inr
            (runFrom2_ok_shape (effEscalate cfg ae?) (effTier cfg tier?) cb B url vid r evs h)
        · rw [if_neg h2] at h
          by_cases h3 : effTier cfg tier? = 3
          · rw [if_pos h3] at h
            obtain ⟨aout, vout, -, -, hr⟩ := tier3Run_ok_shape cb B url vid r evs h
            exact Or.inr (Or.inr ⟨aout, vout, hr⟩)
          · rw [if_neg h3] at h
            simp at h

/-- C4: every `ComprehendResult` returned by `analyze` satisfies: non-empty
`visual_text` implies `tier_used = 3`; at `tier_used = 3`,
`has_visual_content` holds exactly when `visual_frames` is non-empty; and
tier-1/tier-2 results have empty `visual_text` and empty `visual_frames`. -/
theorem c4_result_invariant (cfg : Config) (url : String) (tier? : Option Int)
    (ae? : Option Bool) (cb : Option Callback) (B : Backends)
    (r : ComprehendResult) (evs : List Event)
    (h : analyze cfg url tier? ae? cb B = (.ok r, evs)) :
    (r.visual_text ≠ "" → r.metadata.tier_used = 3)
      ∧ (r.metadata.tier_used = 3 →
          (r.metadata.has_visual_content = true ↔ r.visual_frames ≠ []))
      ∧ ((r.metadata.tier_used = 1 ∨ r.metadata.tier_used = 2) →
          r.visual_text = "" ∧ r.visual_frames = []) := by
  obtain ⟨vid, ⟨out, rfl⟩ | ⟨out, rfl⟩ | ⟨aout, vout, rfl⟩⟩ :=
    analyze_ok_shape cfg url tier? ae? cb B r evs h
  · refine ⟨fun hv => absurd rfl hv, fun h3 => absurd h3 (by simp [mkTier1Result]), fun _ => ⟨rfl, rfl⟩⟩
  · refine ⟨fun hv => absurd rfl hv, fun h3 => absurd h3 (by simp [mkTier2Result]), fun _ => ⟨rfl, rfl⟩⟩
  · refine ⟨fun _ => rfl, fun _ => ?_, fun h12 => ?_⟩
    · show (!vout.frames.isEmpty) = true ↔ vout.frames ≠ []
      simp [List.isEmpty_iff]
    · exact absurd h12 (by simp [mkTier3Result])

/-- Witness for C4 at a concrete successful tier-1 run. -/
theorem c4_result_invariant_witness :
    ((mkTier1Result url0 url0 capOut0).visual_text ≠ ""
        → (mkTier1Result url0 url0 capOut0).metadata.tier_used = 3)
      ∧ ((mkTier1Result url0 url0 capOut0).metadata.tier_used = 3 →
          ((mkTier1Result url0 url0 capOut0).metadata.has_visual_content = true
            ↔ (mkTier1Result url0 url0 capOut0).visual_frames ≠ []))
      ∧ (((mkTier1Result url0 url0 capOut0).metadata.tier_used = 1
            ∨ (mkTier1Result url0 url0 capOut0).metadata.tier_used = 2) →
          (mkTier1Result url0 url0 capOut0).visual_text = ""
            ∧ (mkTier1Result url0 url0 capOut0).visual_frames = []) :=
  c4_result_invariant cfg0 url0 none none none okBackends
    (mkTier1Result url0 url0 capOut0) [Event.callCaption] rfl

end YtComprehend
